import Mathlib

/-!
Verification of scripts/identify_scopes.py (scope-matching engine).

The development shallowly embeds the matching core of the script:

* a small regex AST plus matching engine modelling the fragment of
  Python's re module that the script's compiled patterns use
  (literals, escaped literals, character classes, alternation,
  non-capturing groups, the quantifiers * + ?, and the anchors and dollar,
  with re.search semantics);
* a recursive-descent model of re.compile for that fragment, returning
  an error value for malformed patterns (Python's re.error, also
  called PatternError);
* the glob-to-regex translation and matcher construction of
  _get_match_fn (identify_scopes.py lines 188-223);
* Area._contains (lines 176-182), the loop body of Scopes.__init__
  that builds one Area per configuration entry (lines 120-140), and
  Scopes._list_cmd (lines 149-174).

The repository adapter (git ls-files, YAML loading) is external to the
core per the specification; the file list and the parsed configuration
are parameters here.
-/

/-- Regex abstract syntax for the fragment used by identify_scopes.py.
cls neg cs is a character class: it accepts a character c iff
(c is in cs) differs from neg, so cls true cs is a complemented class. -/
inductive Regex : Type where
  | eps : Regex
  | chr : Char → Regex
  | cls : Bool → List Char → Regex
  | bol : Regex
  | eol : Regex
  | cat : Regex → Regex → Regex
  | alt : Regex → Regex → Regex
  | star : Regex → Regex

/-- Does the character class (neg, cs) accept character d. -/
def clsAccepts (neg : Bool) (cs : List Char) (d : Char) : Bool :=
  cs.contains d != neg

/-- Kleene-star iteration: repeatedly extend the set of reachable
match states, keeping only iterations that consume at least one
character (an iteration of the starred expression that consumes
nothing cannot change the set of reachable states). The fuel is an
upper bound on the number of consuming iterations. -/
def starIter (f : Nat → List Char → List (Nat × List Char)) :
    Nat → Nat → List Char → List (Nat × List Char)
  | 0, i, s => [(i, s)]
  | fuel + 1, i, s =>
    (i, s) ::
      (((f i s).filter (fun q => q.2.length < s.length)).flatMap
        (fun q => starIter f fuel q.1 q.2))

/-- All match states (absolute position, remaining input) reachable by
matching r starting at absolute position i with remaining input s.
The absolute position is consulted only by bol (Python's caret, which
without MULTILINE matches only at position 0); eol (dollar) matches at
the end of the input or just before a trailing newline. -/
def Regex.positions : Regex → Nat → List Char → List (Nat × List Char)
  | .eps, i, s => [(i, s)]
  | .chr c, i, s =>
    match s with
    | [] => []
    | d :: t => if d = c then [(i + 1, t)] else []
  | .cls neg cs, i, s =>
    match s with
    | [] => []
    | d :: t => if clsAccepts neg cs d then [(i + 1, t)] else []
  | .bol, i, s => if i = 0 then [(i, s)] else []
  | .eol, i, s =>
    if s.isEmpty then [(i, s)] else if s = ['\n'] then [(i, s)] else []
  | .cat a b, i, s => (a.positions i s).flatMap (fun q => b.positions q.1 q.2)
  | .alt a b, i, s => a.positions i s ++ b.positions i s
  | .star a, i, s => starIter (fun j t => a.positions j t) (s.length + 1) i s

/-- re.search semantics: try to match at every start position in turn;
the result is true iff some start position admits a match. -/
def searchFrom (r : Regex) : Nat → List Char → Bool
  | i, [] => !(r.positions i []).isEmpty
  | i, s@(_ :: t) => !(r.positions i s).isEmpty || searchFrom r (i + 1) t

/-- Model of pattern.search(path) used as a boolean (the script uses the
search method of the compiled regex as the match function). -/
def reSearch (r : Regex) (path : String) : Bool :=
  searchFrom r 0 path.data

/-- Model of re.error (named PatternError since Python 3.13): the regex
error message together with the pattern string being compiled. -/
structure PatternErr : Type where
  msg : String
  pattern : String
deriving DecidableEq

/-- Character-class body parser: after the opening bracket (and optional
caret, handled by the caller) read characters up to the closing bracket. -/
def parseCls (neg : Bool) (acc : List Char) : List Char → Except String (Regex × List Char)
  | [] => .error "unterminated character set"
  | ']' :: t => .ok (Regex.cls neg acc.reverse, t)
  | c :: t => parseCls neg (c :: acc) t

/-- Precedence levels of the recursive-descent regex grammar:
alternation, concatenation, a repeated atom, an atom. -/
inductive PLevel : Type where
  | palt : PLevel
  | pcat : PLevel
  | prep : PLevel
  | patom : PLevel

/-- Recursive-descent parser for the regex fragment, modelling
re.compile's syntax analysis. The fuel decreases on every recursive
call; the entry point supplies more fuel than any input of that length
can consume, so running out of fuel is unreachable from reCompile. -/
def parseR : Nat → PLevel → List Char → Except String (Regex × List Char)
  | 0, _, _ => .error "pattern too complex"
  | fuel + 1, PLevel.palt, s =>
    (parseR fuel PLevel.pcat s).bind (fun q =>
      match q.2 with
      | '|' :: t =>
        (parseR fuel PLevel.palt t).bind (fun q2 =>
          .ok (Regex.alt q.1 q2.1, q2.2))
      | _ => .ok q)
  | fuel + 1, PLevel.pcat, s =>
    match s with
    | [] => .ok (Regex.eps, [])
    | ')' :: _ => .ok (Regex.eps, s)
    | '|' :: _ => .ok (Regex.eps, s)
    | _ =>
      (parseR fuel PLevel.prep s).bind (fun q =>
        (parseR fuel PLevel.pcat q.2).bind (fun q2 =>
          .ok (Regex.cat q.1 q2.1, q2.2)))
  | fuel + 1, PLevel.prep, s =>
    (parseR fuel PLevel.patom s).bind (fun q =>
      match q.2 with
      | '*' :: t => .ok (Regex.star q.1, t)
      | '+' :: t => .ok (Regex.cat q.1 (Regex.star q.1), t)
      | '?' :: t => .ok (Regex.alt Regex.eps q.1, t)
      | _ => .ok q)
  | fuel + 1, PLevel.patom, s =>
    match s with
    | [] => .error "nothing to match"
    | '(' :: '?' :: ':' :: t =>
      (parseR fuel PLevel.palt t).bind (fun q =>
        match q.2 with
        | ')' :: t2 => .ok (q.1, t2)
        | _ => .error "missing ), unterminated subpattern")
    | '(' :: t =>
      (parseR fuel PLevel.palt t).bind (fun q =>
        match q.2 with
        | ')' :: t2 => .ok (q.1, t2)
        | _ => .error "missing ), unterminated subpattern")
    | '[' :: '^' :: t => parseCls true [] t
    | '[' :: t => parseCls false [] t
    | '\\' :: [] => .error "bad escape (end of pattern)"
    | '\\' :: c :: t =>
      if c.isAlphanum then .error "bad escape" else .ok (Regex.chr c, t)
    | '^' :: t => .ok (Regex.bol, t)
    | '$' :: t => .ok (Regex.eol, t)
    | '.' :: t => .ok (Regex.cls true ['\n'], t)
    | '*' :: _ => .error "nothing to repeat"
    | '+' :: _ => .error "nothing to repeat"
    | '?' :: _ => .error "nothing to repeat"
    | c :: t => .ok (Regex.chr c, t)

/-- Model of re.compile: parse the whole pattern; a parse error or
leftover input (an unbalanced closing parenthesis) is a PatternErr
carrying the pattern text, as re.error does. -/
def reCompile (pattern : String) : Except PatternErr Regex :=
  match parseR (4 * pattern.length + 8) PLevel.palt pattern.data with
  | .error m => .error ⟨m, pattern⟩
  | .ok (r, []) => .ok r
  | .ok (_, _ :: _) => .error ⟨"unbalanced parenthesis", pattern⟩

example : reCompile "^(?:a+b$)" =
    .ok (Regex.cat Regex.bol
      (Regex.cat
        (Regex.cat (Regex.cat (Regex.chr 'a') (Regex.star (Regex.chr 'a')))
          (Regex.cat (Regex.chr 'b') (Regex.cat Regex.eol Regex.eps)))
        Regex.eps)) := by rfl

example : (reCompile "^(?:a+b$)").map (fun r => reSearch r "aab") = .ok true := by rfl
example : (reCompile "^(?:[^/]*c$)").map (fun r => reSearch r "ab/c") = .ok false := by rfl

/-- Replace every occurrence of the character c by the string repl,
scanning left to right without re-examining replacement text: the
behaviour of Python's str.replace for a one-character pattern, which is
the only shape of pattern identify_scopes.py passes to replace. -/
def replaceChar (c : Char) (repl : List Char) : List Char → List Char
  | [] => []
  | d :: t => if d = c then repl ++ replaceChar c repl t else d :: replaceChar c repl t

/-- The glob-to-regex translation of _get_match_fn (lines 203-212):
escape the dot, expand star and question mark to directory-local
wildcards (in the source's replace order: dot, then star, then
question mark), and append an end-of-string anchor unless the glob
ends in a slash. -/
def globToRegex (glob : String) : String :=
  let g := String.mk (replaceChar '?' ['[', '^', '/', ']']
    (replaceChar '*' ['[', '^', '/', ']', '*']
      (replaceChar '.' ['\\', '.'] glob.data)))
  if glob.data.getLast? = some '/' then g else g ++ "$"

/-- str.join with a separator (Python's "|".join). -/
def joinWith (sep : String) : List String → String
  | [] => ""
  | [x] => x
  | x :: y :: t => x ++ sep ++ joinWith sep (y :: t)

/-- Model of _get_match_fn (lines 188-223): None when there are neither
globs nor regexes (Python truthiness: an absent key and an empty list
both count as no patterns); otherwise one combined regex, with the
glob alternatives wrapped in an anchored non-capturing group and the
raw regexes appended unanchored, compiled once, its search method
returned. Compilation failure is re.error (PatternErr). -/
def _get_match_fn (globs regexes : Option (List String)) :
    Except PatternErr (Option (String → Bool)) :=
  let gs := globs.getD []
  let rs := regexes.getD []
  if gs.isEmpty && rs.isEmpty then .ok none
  else
    let regex : String :=
      if gs.isEmpty then "" else "^(?:" ++ joinWith "|" (gs.map globToRegex) ++ ")"
    let regex : String :=
      if rs.isEmpty then regex
      else (if regex.data.isEmpty then regex else regex ++ "|") ++ joinWith "|" rs
    (reCompile regex).map (fun r => some (reSearch r))

/-- One entry of the scope file, before defaulting: each optional key of
the per-scope mapping in scope.yml, absent keys represented by none. -/
structure ScopeDict : Type where
  files : Option (List String)
  filesRegex : Option (List String)
  filesExclude : Option (List String)
  filesRegexExclude : Option (List String)
  labels : Option (List String)
  description : Option String

/-- One compiled scope, mirroring the attributes Scopes.__init__ sets on
each Area object. -/
structure Area : Type where
  name : String
  files : List String
  labels : List String
  description : Option String
  _match_fn : Option (String → Bool)
  _exclude_match_fn : Option (String → Bool)

/-- Area._contains (lines 178-182): under Python truthiness, the area
contains the path iff the include matcher exists and accepts it and
not (the exclude matcher exists and accepts it). -/
def Area._contains (a : Area) (path : String) : Bool :=
  (match a._match_fn with
   | none => false
   | some f => f path) &&
  !(match a._exclude_match_fn with
    | none => false
    | some g => g path)

/-- The loop body of Scopes.__init__ (lines 121-140): build one Area
from a configuration entry, defaulting absent keys, compiling the
include matcher and then the exclude matcher. -/
def mkArea (name : String) (d : ScopeDict) : Except PatternErr Area :=
  match _get_match_fn d.files d.filesRegex with
  | .error e => .error e
  | .ok m =>
    match _get_match_fn d.filesExclude d.filesRegexExclude with
    | .error e => .error e
    | .ok em => .ok ⟨name, d.files.getD [], d.labels.getD [], d.description, m, em⟩

/-- The whole construction loop of Scopes.__init__ over the ordered
configuration mapping; the first compilation failure aborts
construction, as the uncaught exception does in Python. -/
def scopesForCfg : List (String × ScopeDict) → Except PatternErr (List (String × Area))
  | [] => .ok []
  | (name, d) :: rest =>
    match mkArea name d with
    | .error e => .error e
    | .ok a =>
      match scopesForCfg rest with
      | .error e => .error e
      | .ok tail => .ok ((name, a) :: tail)

/-- The Scopes object: the scope file name and the ordered scope table
(Python dicts preserve insertion order). -/
structure Scopes : Type where
  filename : String
  scopes : List (String × Area)

/-- Scopes.__init__ restricted to its core: the repository adapter
(git rev-parse, YAML loading) supplies filename and the parsed
configuration from outside. -/
def scopesInit (filename : String) (cfg : List (String × ScopeDict)) :
    Except PatternErr Scopes :=
  (scopesForCfg cfg).map (fun l => ⟨filename, l⟩)

/-- Errors observable from _list_cmd: ScopeError and GitError are
exception classes that _main catches; sysExit models _serr
(lines 271-274), which calls sys.exit and so terminates the process
(sys.exit's SystemExit message; the argv prefix _serr adds is an
environment detail left out of the payload). -/
inductive Err : Type where
  | scopeErr : String → Err
  | gitErr : String → Err
  | sysExit : String → Err
deriving DecidableEq

/-- Whether an error of this kind can be handled by a caller and other
queries continued: ScopeError and GitError are ordinary exceptions
(caught in _main); sysExit is a process exit. -/
def Err.recoverable : Err → Bool
  | .scopeErr _ => true
  | .gitErr _ => true
  | .sysExit _ => false

/-- dict.get on the ordered scope table (self.scopes.get(args.scope)). -/
def getScope : List (String × Area) → String → Option Area
  | [], _ => none
  | (n, a) :: rest, name => if n = name then some a else getScope rest name

/-- The inner loop of the no-argument branch of _list_cmd
(lines 156-161): scan the areas in table order and stop at the first
one containing the path. -/
def scanAreas : List (String × Area) → String → Bool
  | [], _ => false
  | (_, a) :: rest, p => if a._contains p then true else scanAreas rest p

/-- The outer loop of the no-argument branch of _list_cmd: append each
path that some area contains, once, in input order. -/
def listAllLoop (scopes : List (String × Area)) : List String → List String
  | [] => []
  | p :: ps =>
    if scanAreas scopes p then p :: listAllLoop scopes ps else listAllLoop scopes ps

/-- The loop of the named-scope branch of _list_cmd (lines 169-172):
append each path the area contains, in input order. -/
def listScopeLoop (a : Area) : List String → List String
  | [] => []
  | p :: ps => if a._contains p then p :: listScopeLoop a ps else listScopeLoop a ps

/-- Scopes._list_cmd (lines 149-174), with the git file listing supplied
as the files parameter (the repository adapter is external). With no
scope argument it lists every non-orphaned file; with a scope name it
looks the name up and, when absent, reaches _serr and hence sys.exit
with the message of line 166. The printed output equals the returned
list, so only the list is modelled. -/
def Scopes._list_cmd (S : Scopes) (argScope : Option String) (files : List String) :
    Except Err (List String) :=
  match argScope with
  | none => .ok (listAllLoop S.scopes files)
  | some name =>
    match getScope S.scopes name with
    | none =>
      .error (Err.sysExit ("'" ++ name ++ "': no such area defined in '" ++
        S.filename ++ "'"))
    | some a => .ok (listScopeLoop a files)


/-- Does the include matcher of the area exist and accept the path
(the spec's "include matcher accepts p"). -/
def includeAccepts (a : Area) (p : String) : Bool :=
  match a._match_fn with
  | none => false
  | some f => f p

/-- Does the exclude matcher of the area exist and accept the path
(the spec's "exclude matcher accepts p"). -/
def excludeAccepts (a : Area) (p : String) : Bool :=
  match a._exclude_match_fn with
  | none => false
  | some g => g p

/-- Run the matcher compiled from a pattern set on one path: ok none
when there is no matcher, ok (some b) with the matcher's verdict
otherwise, error on compilation failure. -/
def runMatch (globs regexes : Option (List String)) (p : String) :
    Except PatternErr (Option Bool) :=
  (_get_match_fn globs regexes).map (fun om => om.map (fun f => f p))

/-- Build the area for one configuration entry and test membership of
one path. -/
def containsOf (name : String) (d : ScopeDict) (p : String) : Except PatternErr Bool :=
  (mkArea name d).map (fun a => a._contains p)

/-- A configuration entry with every optional key absent. -/
def emptyDict : ScopeDict := ⟨none, none, none, none, none, none⟩

/-- The spec's example entry: files ["*.py"], files-exclude ["test_*.py"]. -/
def pyDict : ScopeDict := ⟨some ["*.py"], none, some ["test_*.py"], none, none, none⟩

/-- The compiled area of pyDict (compilation succeeds, so the default
of toOption.getD is never used). -/
def pyArea : Area := ((mkArea "py" pyDict).toOption).getD ⟨"py", [], [], none, none, none⟩

/-- A configuration entry whose files-regex contains the invalid regex
pattern consisting of a lone opening parenthesis. -/
def badDict : ScopeDict := ⟨none, some ["("], none, none, none, none⟩

/-- A concrete one-scope table for the query claims. -/
def S1 : Scopes := ⟨"scope.yml", [("py", pyArea)]⟩

/-- With no include patterns (absent or empty lists on both keys),
_get_match_fn returns the no-matcher sentinel. -/
theorem get_match_fn_empty (globs regexes : Option (List String))
    (hg : globs.getD [] = []) (hr : regexes.getD [] = []) :
    _get_match_fn globs regexes = .ok none := by
  simp only [_get_match_fn, hg, hr]
  rfl

/-- The named-scope listing loop is the filter of the input list by
membership. -/
theorem listScopeLoop_eq_filter (a : Area) (files : List String) :
    listScopeLoop a files = files.filter (fun p => a._contains p) := by
  induction files with
  | nil => rfl
  | cons p ps ih =>
    cases h : a._contains p <;> simp [listScopeLoop, List.filter_cons, h, ih]

/-- The break-at-first-match scan over the scope table agrees with
"some scope contains the path". -/
theorem scanAreas_eq_any (scopes : List (String × Area)) (p : String) :
    scanAreas scopes p = scopes.any (fun q => q.2._contains p) := by
  induction scopes with
  | nil => rfl
  | cons q rest ih =>
    cases q with
    | mk n a => cases h : a._contains p <;> simp [scanAreas, h, ih]

/-- The all-scopes listing loop is the filter of the input list by the
first-match scan. -/
theorem listAllLoop_eq_filter (scopes : List (String × Area)) (files : List String) :
    listAllLoop scopes files = files.filter (fun p => scanAreas scopes p) := by
  induction files with
  | nil => rfl
  | cons p ps ih =>
    cases h : scanAreas scopes p <;> simp [listAllLoop, List.filter_cons, h, ih]

/-- C1: Area._contains is true exactly when the include matcher accepts
the path and the exclude matcher does not; an accepted exclusion forces
the result false regardless of inclusion; and on the spec's example
scope (files ["*.py"], files-exclude ["test_*.py"]) membership is true
for "tool.py" and false for "test_tool.py". -/
theorem c1_contains_semantics :
    (∀ (a : Area) (p : String),
      a._contains p = (includeAccepts a p && !excludeAccepts a p)) ∧
    (∀ (a : Area) (p : String), excludeAccepts a p = true → a._contains p = false) ∧
    containsOf "py" pyDict "tool.py" = .ok true ∧
    containsOf "py" pyDict "test_tool.py" = .ok false := by
  refine ⟨fun a p => rfl, fun a p h => ?_, rfl, rfl⟩
  show (includeAccepts a p && !excludeAccepts a p) = false
  rw [h]
  simp

/-- Witness for C1: the example area excludes "test_tool.py", and the
implication of c1_contains_semantics then gives non-membership. -/
theorem c1_contains_semantics_witness : pyArea._contains "test_tool.py" = false :=
  c1_contains_semantics.2.1 pyArea "test_tool.py" (by rfl)

/-- C2: a scope whose pattern spec has neither include globs nor
include regexes (absent or empty) contains no path at all. -/
theorem c2_no_include_matches_nothing (name : String) (d : ScopeDict) (a : Area)
    (p : String) (hg : d.files.getD [] = []) (hr : d.filesRegex.getD [] = [])
    (hok : mkArea name d = .ok a) : a._contains p = false := by
  unfold mkArea at hok
  rw [get_match_fn_empty d.files d.filesRegex hg hr] at hok
  cases hE : _get_match_fn d.filesExclude d.filesRegexExclude with
  | error e => rw [hE] at hok; cases hok
  | ok em =>
    rw [hE] at hok
    cases hok
    rfl

/-- Witness for C2: the all-keys-absent entry yields an area containing
nothing, evaluated at a concrete path. -/
theorem c2_no_include_matches_nothing_witness :
    (⟨"x", [], [], none, none, none⟩ : Area)._contains "foo.c" = false :=
  c2_no_include_matches_nothing "x" emptyDict ⟨"x", [], [], none, none, none⟩
    "foo.c" rfl rfl rfl

/-- C3: the matcher compiled from the single glob "*.c" accepts
"main.c", rejects "sub/main.c" (star does not cross a slash), and
rejects "main.cpp" (a glob not ending in a slash is anchored to a full
match). -/
theorem c3_glob_anchoring :
    runMatch (some ["*.c"]) none "main.c" = .ok (some true) ∧
    runMatch (some ["*.c"]) none "sub/main.c" = .ok (some false) ∧
    runMatch (some ["*.c"]) none "main.cpp" = .ok (some false) :=
  ⟨rfl, rfl, rfl⟩

/-- C4: the matcher compiled from the single glob "drivers/" accepts
"drivers/uart.c" and "drivers/sub/uart.c", and in general every path
that begins with "drivers/" (no end anchor for a glob ending in a
slash). -/
theorem c4_directory_prefix :
    runMatch (some ["drivers/"]) none "drivers/uart.c" = .ok (some true) ∧
    runMatch (some ["drivers/"]) none "drivers/sub/uart.c" = .ok (some true) ∧
    ∀ p : String, runMatch (some ["drivers/"]) none ("drivers/" ++ p) = .ok (some true) := by
  refine ⟨rfl, rfl, fun p => ?_⟩
  obtain ⟨l⟩ := p
  rfl

/-- Unfolding of the named-scope branch of _list_cmd. -/
theorem list_cmd_some (S : Scopes) (name : String) (files : List String) :
    Scopes._list_cmd S (some name) files =
      match getScope S.scopes name with
      | none =>
        Except.error (Err.sysExit ("'" ++ name ++ "': no such area defined in '" ++
          S.filename ++ "'"))
      | some a => Except.ok (listScopeLoop a files) := rfl

/-- Counterexample to C5: construction with the invalid regex "(" fails
with a PatternError carrying the regex message and the pattern text,
but the error is the very same value for two different scope names, so
it cannot report the scope name. -/
theorem c5_counterexample :
    scopesInit "scope.yml" [("x", badDict)] =
      .error ⟨"missing ), unterminated subpattern", "("⟩ ∧
    scopesInit "scope.yml" [("y", badDict)] =
      .error ⟨"missing ), unterminated subpattern", "("⟩ :=
  ⟨rfl, rfl⟩

/-- C5 as amended: an invalid regex pattern makes construction fail
with a PatternError that reports the regex error message and the
pattern text; the error value does not depend on (and so does not
report) the scope name, and it is returned to the caller, never
swallowed. -/
theorem c5_amended_pattern_error (name filename : String) :
    scopesInit filename [(name, badDict)] =
      .error ⟨"missing ), unterminated subpattern", "("⟩ := rfl

/-- Counterexample to C6: on an unknown scope name the list operation
does not produce a recoverable UnknownScopeError; it reaches _serr and
hence sys.exit, a process abort (and it does not return an empty
list). -/
theorem c6_counterexample :
    Scopes._list_cmd S1 (some "nope") ["tool.py"] =
      .error (Err.sysExit "'nope': no such area defined in 'scope.yml'") ∧
    Err.recoverable (Err.sysExit "'nope': no such area defined in 'scope.yml'") = false :=
  ⟨rfl, rfl⟩

/-- C6 as amended: for every scope name absent from the table, the list
operation does not return a list at all (in particular not a silent
empty list); it fails by calling sys.exit with a message naming the
unknown scope and the scope file, which terminates the process rather
than raising a caller-recoverable error. -/
theorem c6_amended_unknown_scope_exits (S : Scopes) (name : String) (files : List String)
    (h : getScope S.scopes name = none) :
    Scopes._list_cmd S (some name) files =
      .error (Err.sysExit ("'" ++ name ++ "': no such area defined in '" ++
        S.filename ++ "'")) := by
  rw [list_cmd_some, h]

/-- Witness for the amended C6 at a concrete table and name. -/
theorem c6_amended_unknown_scope_exits_witness :
    Scopes._list_cmd S1 (some "missing") ["tool.py"] =
      .error (Err.sysExit ("'" ++ "missing" ++ "': no such area defined in '" ++
        S1.filename ++ "'")) :=
  c6_amended_unknown_scope_exits S1 "missing" ["tool.py"] rfl

/-- C7: listing the files of a declared scope returns exactly the input
paths the scope contains, as a filter of the input sequence: the input
ordering is preserved and nothing is duplicated (the result is a
sublist of the input). -/
theorem c7_list_scope_is_ordered_filter (S : Scopes) (name : String) (a : Area)
    (files : List String) (h : getScope S.scopes name = some a) :
    Scopes._list_cmd S (some name) files =
      .ok (files.filter (fun p => a._contains p)) ∧
    List.Sublist (files.filter (fun p => a._contains p)) files := by
  constructor
  · rw [list_cmd_some, h]
    show Except.ok (listScopeLoop a files) = _
    rw [listScopeLoop_eq_filter]
  · exact List.filter_sublist files

/-- Witness for C7 on the concrete one-scope table. -/
theorem c7_list_scope_is_ordered_filter_witness :
    Scopes._list_cmd S1 (some "py") ["tool.py", "test_tool.py", "README"] =
      .ok (["tool.py", "test_tool.py", "README"].filter (fun p => pyArea._contains p)) ∧
    List.Sublist
      (["tool.py", "test_tool.py", "README"].filter (fun p => pyArea._contains p))
      ["tool.py", "test_tool.py", "README"] :=
  c7_list_scope_is_ordered_filter S1 "py" pyArea ["tool.py", "test_tool.py", "README"] rfl

/-- C8: a configuration entry with every optional key absent constructs
successfully, with the documented defaults: empty files and labels,
no description, and absent include and exclude matchers; the whole
table construction succeeds likewise. -/
theorem c8_absent_keys_default (name filename : String) :
    mkArea name emptyDict = .ok ⟨name, [], [], none, none, none⟩ ∧
    scopesInit filename [(name, emptyDict)] =
      .ok ⟨filename, [(name, ⟨name, [], [], none, none, none⟩)]⟩ :=
  ⟨rfl, rfl⟩

/-- C9: the glob translation escapes only the dot (the dot glob "a.b"
becomes a\.b with an end anchor, while the plus in "a+b" is kept as a
regex quantifier), so the matcher compiled from the glob "a+b" accepts
"aab", a path that is not a character-for-character match of the
glob. -/
theorem c9_only_dot_escaped :
    globToRegex "a.b" = "a\\.b$" ∧
    globToRegex "a+b" = "a+b$" ∧
    runMatch (some ["a+b"]) none "aab" = .ok (some true) ∧
    "aab" ≠ "a+b" :=
  ⟨rfl, rfl, rfl, by decide⟩

/-- C10: the list operation without a scope name returns exactly the
input paths contained in at least one declared scope, as a filter of
the input sequence (input order, one occurrence per input occurrence
even when several scopes contain the path), and the result is a
sublist of the input. -/
theorem c10_list_all_is_ordered_filter (S : Scopes) (files : List String) :
    Scopes._list_cmd S none files =
      .ok (files.filter (fun p => S.scopes.any (fun q => q.2._contains p))) ∧
    List.Sublist (files.filter (fun p => S.scopes.any (fun q => q.2._contains p))) files := by
  constructor
  · show Except.ok (listAllLoop S.scopes files) = _
    rw [listAllLoop_eq_filter, funext (fun p => scanAreas_eq_any S.scopes p)]
  · exact List.filter_sublist files
